import Mathlib

/-!
# Verification of the gachacha card-drawing webapp core

Shallow embedding of the carousel rotation/selection engine, the settings
store and the gesture-signal interpreter of the gachacha repository
(`src/webapp/src/pages/HomePage.tsx`, `SettingsPage.tsx`, the `AppContext`
provider and the `useGestureControl` hook). JavaScript numbers are modelled
as exact rationals (every JS float is a rational); JS integer-valued
quantities are modelled as `Int`; fallible parsing is modelled with
`Option`.
-/

namespace Gachacha

/-! ## JavaScript numeric primitives

The JS `%` operator on numbers is a remainder that truncates toward zero:
`a % n = a - n * trunc (a / n)` (for finite `n ≠ 0`), and `Math.round x`
rounds half-up, i.e. `⌊x + 1/2⌋`, which is exactly Mathlib's `round`.
-/

/-- JS `Math.trunc`: truncation toward zero. -/
def ratTrunc (q : ℚ) : ℤ := if 0 ≤ q then ⌊q⌋ else ⌈q⌉

/-- The JS `%` operator on numbers: `a % n = a - n * trunc (a / n)`. -/
def jsMod (a n : ℚ) : ℚ := a - n * (ratTrunc (a / n) : ℚ)

theorem jsMod_eq_fract {a n : ℚ} (ha : 0 ≤ a) (hn : 0 < n) :
    jsMod a n = n * Int.fract (a / n) := by
  have hdiv : 0 ≤ a / n := div_nonneg ha hn.le
  have hne : n ≠ 0 := hn.ne'
  unfold jsMod ratTrunc
  rw [if_pos hdiv, Int.fract]
  field_simp

theorem jsMod_eq_neg_fract {a n : ℚ} (ha : a < 0) (hn : 0 < n) :
    jsMod a n = -(n * Int.fract (-a / n)) := by
  have hdiv : a / n < 0 := div_neg_of_neg_of_pos ha hn
  have hne : n ≠ 0 := hn.ne'
  unfold jsMod ratTrunc
  rw [if_neg (not_le.mpr hdiv)]
  have hceil : (⌈a / n⌉ : ℤ) = -⌊-(a / n)⌋ := by
    rw [Int.floor_neg]; ring
  rw [hceil, Int.fract, neg_div]
  push_cast
  field_simp
  ring

/-! ## Selection resolver (`handleConfirm` in `HomePage.tsx`)

```js
const anglePerCard = 360 / cardAmount;
const normalizedRotation = ((rotation % 360) + 360) % 360;
const centeredCardIndex =
  Math.round(normalizedRotation / anglePerCard) % cardAmount;
```
-/

/-- The normalization `((rotation % 360) + 360) % 360` from `handleConfirm`. -/
def normalizedRotation (rotation : ℚ) : ℚ := jsMod (jsMod rotation 360 + 360) 360

/-- The selected index computed by `handleConfirm`:
`Math.round(normalizedRotation / anglePerCard) % cardAmount`. -/
def handleConfirm (rotation : ℚ) (cardAmount : ℤ) : ℚ :=
  let anglePerCard : ℚ := 360 / (cardAmount : ℚ)
  jsMod ((round (normalizedRotation rotation / anglePerCard) : ℤ) : ℚ)
    (cardAmount : ℚ)

/-- The double-`%` normalization agrees with the mathematical (floor) modulus:
it yields `360 * fract (a / 360)`. -/
theorem normalizedRotation_eq_fract (a : ℚ) :
    normalizedRotation a = 360 * Int.fract (a / 360) := by
  unfold normalizedRotation
  rcases le_or_lt 0 a with ha | ha
  · have h1 : jsMod a 360 = 360 * Int.fract (a / 360) :=
      jsMod_eq_fract ha (by norm_num)
    have hfr0 : (0:ℚ) ≤ Int.fract (a / 360) := Int.fract_nonneg _
    have hfr1 : Int.fract (a / 360) < 1 := Int.fract_lt_one _
    rw [h1]
    have h2 : (0:ℚ) ≤ 360 * Int.fract (a / 360) + 360 := by positivity
    rw [jsMod_eq_fract h2 (by norm_num : (0:ℚ) < 360)]
    have hdiv : (360 * Int.fract (a / 360) + 360) / 360
        = Int.fract (a / 360) + 1 := by
      field_simp
      ring
    rw [hdiv]
    have : Int.fract (Int.fract (a / 360) + 1) = Int.fract (a / 360) := by
      rw [Int.fract_add_one, Int.fract_fract]
    rw [this]
  · have h1 : jsMod a 360 = -(360 * Int.fract (-a / 360)) :=
      jsMod_eq_neg_fract ha (by norm_num)
    set f : ℚ := Int.fract (-a / 360) with hf
    have hfr0 : (0:ℚ) ≤ f := Int.fract_nonneg _
    have hfr1 : f < 1 := Int.fract_lt_one _
    rw [h1]
    have h2 : (0:ℚ) ≤ -(360 * f) + 360 := by nlinarith
    rw [jsMod_eq_fract h2 (by norm_num : (0:ℚ) < 360)]
    have hdiv : (-(360 * f) + 360) / 360 = 1 - f := by field_simp; ring
    rw [hdiv]
    rcases eq_or_ne f 0 with hzero | hne
    · have hfa : Int.fract (a / 360) = 0 := by
        have := Int.fract_neg_eq_zero.mpr (hf ▸ hzero : Int.fract (-a / 360) = 0)
        rwa [neg_div, neg_neg] at this
      rw [hzero, hfa]
      norm_num
    · have hneg : Int.fract (-(-a / 360)) = 1 - Int.fract (-a / 360) :=
        Int.fract_neg (hf ▸ hne)
      rw [neg_div, neg_neg] at hneg
      have hfa : Int.fract (a / 360) = 1 - f := by
        rw [hf, neg_div]
        exact hneg
      rw [hfa]
      have h01 : (0:ℚ) ≤ 1 - f := by linarith
      have h11 : 1 - f < 1 := by
        have : 0 < f := lt_of_le_of_ne hfr0 (Ne.symm hne)
        linarith
      rw [Int.fract_eq_self.mpr ⟨h01, h11⟩]

theorem normalizedRotation_nonneg (a : ℚ) : 0 ≤ normalizedRotation a := by
  rw [normalizedRotation_eq_fract]
  have := Int.fract_nonneg (a / 360)
  linarith

theorem normalizedRotation_lt (a : ℚ) : normalizedRotation a < 360 := by
  rw [normalizedRotation_eq_fract]
  have := Int.fract_lt_one (a / 360)
  linarith

/-- C1: For every `cardAmount ∈ [3,20]` and every rotation angle, the
selected index computed by `handleConfirm` lies in `[0, cardAmount)`. -/
theorem confirm_index_in_range (rotation : ℚ) (cardAmount : ℤ)
    (h3 : 3 ≤ cardAmount) (h20 : cardAmount ≤ 20) :
    0 ≤ handleConfirm rotation cardAmount ∧
      handleConfirm rotation cardAmount < (cardAmount : ℚ) := by
  have hcaQ : (0:ℚ) < (cardAmount : ℚ) := by
    exact_mod_cast lt_of_lt_of_le (by norm_num : (0:ℤ) < 3) h3
  have hquot : 0 ≤ normalizedRotation rotation / (360 / (cardAmount : ℚ)) := by
    apply div_nonneg (normalizedRotation_nonneg rotation)
    positivity
  have hround : (0:ℤ) ≤ round (normalizedRotation rotation / (360 / (cardAmount : ℚ))) := by
    rw [round_eq]
    exact Int.floor_nonneg.mpr (by linarith)
  have hr : (0:ℚ) ≤ ((round (normalizedRotation rotation / (360 / (cardAmount : ℚ))) : ℤ) : ℚ) := by
    exact_mod_cast hround
  unfold handleConfirm
  rw [jsMod_eq_fract hr hcaQ]
  constructor
  · have := Int.fract_nonneg
      (((round (normalizedRotation rotation / (360 / (cardAmount : ℚ))) : ℤ) : ℚ) / (cardAmount : ℚ))
    positivity
  · have hlt := Int.fract_lt_one
      (((round (normalizedRotation rotation / (360 / (cardAmount : ℚ))) : ℤ) : ℚ) / (cardAmount : ℚ))
    calc (cardAmount : ℚ) * Int.fract _ < (cardAmount : ℚ) * 1 := by
          exact mul_lt_mul_of_pos_left hlt hcaQ
    _ = (cardAmount : ℚ) := mul_one _

/-- Witness for `confirm_index_in_range` at rotation `123.4`, `cardAmount = 10`. -/
theorem confirm_index_in_range_witness :
    0 ≤ handleConfirm (1234/10) 10 ∧ handleConfirm (1234/10) 10 < ((10:ℤ) : ℚ) :=
  confirm_index_in_range (1234/10) 10 (by decide) (by decide)

/-- C8: selection is periodic in the rotation angle with period 360: confirming
at `360 * k + θ` yields the same index as confirming at `θ`. -/
theorem confirm_periodic (θ : ℚ) (k : ℤ) (cardAmount : ℤ)
    (h3 : 3 ≤ cardAmount) (h20 : cardAmount ≤ 20) :
    handleConfirm (360 * (k : ℚ) + θ) cardAmount = handleConfirm θ cardAmount := by
  unfold handleConfirm
  have hnorm : normalizedRotation (360 * (k : ℚ) + θ) = normalizedRotation θ := by
    rw [normalizedRotation_eq_fract, normalizedRotation_eq_fract]
    have hdiv : (360 * (k : ℚ) + θ) / 360 = (k : ℚ) + θ / 360 := by
      field_simp
      ring
    rw [hdiv, Int.fract_int_add]
  rw [hnorm]

/-- Witness for `confirm_periodic` at `θ = 45`, `k = -3`, `cardAmount = 12`. -/
theorem confirm_periodic_witness :
    handleConfirm (360 * ((-3 : ℤ) : ℚ) + 45) 12 = handleConfirm 45 12 :=
  confirm_periodic 45 (-3) 12 (by decide) (by decide)

/-! ## Settings store (`AppContext.tsx`)

```ts
interface CardContent { id: number; text: string }
interface AppSettings { cardAmount; cardContents; moveSpeed; deleteDrawnCard }
```
`deleteDrawnCard` is absent from the stored default (treated as `false`).
A partial update (`Partial<AppSettings>`) is modelled with one `Option` per
field; an omitted field leaves the previous value (the `{ ...prev,
...newSettings }` spread).
-/

/-- A card entry `{ id, text }`. -/
structure CardContent where
  id : ℤ
  text : String
deriving DecidableEq

/-- The settings record held by `AppContext`. -/
structure AppSettings where
  cardAmount : ℤ
  cardContents : List CardContent
  moveSpeed : ℚ
  deleteDrawnCard : Bool
deriving DecidableEq

/-- A `Partial<AppSettings>` argument to `updateSettings`. -/
structure SettingsUpdate where
  cardAmount : Option ℤ
  cardContents : Option (List CardContent)
  moveSpeed : Option ℚ
  deleteDrawnCard : Option Bool
deriving DecidableEq

/-- The synthesized default text `` `Lucky Card ${n}` ``. -/
def luckyCardText (n : ℤ) : String := "Lucky Card " ++ toString n

/-- The synthesized entries appended when the contents list must grow from
`len` existing entries to `amt` (the `Array.from({length: amt - len}, ...)`
expression, used both by `updateSettings` and by the load path). -/
def additionalCards (len : ℕ) (amt : ℤ) : List CardContent :=
  (List.range (amt - len).toNat).map fun (i : ℕ) =>
    { id := (len : ℤ) + (i : ℤ), text := luckyCardText ((len : ℤ) + (i : ℤ) + 1) }

/-- JS `Array.prototype.slice(0, endIdx)`: a negative `endIdx` counts from
the end of the array, and the result never exceeds the array. -/
def jsSlice {α : Type} (l : List α) (endIdx : ℤ) : List α :=
  if endIdx < 0 then l.take (l.length + endIdx).toNat else l.take endIdx.toNat

/-- The `defaultCardContents` list: ten `Lucky Card N` entries with ids `0..9`. -/
def defaultCardContents : List CardContent :=
  (List.range 10).map fun (i : ℕ) =>
    { id := (i : ℤ), text := luckyCardText ((i : ℤ) + 1) }

/-- The `defaultSettings` record from `AppContext.tsx`. -/
def defaultSettings : AppSettings :=
  { cardAmount := 10
    cardContents := defaultCardContents
    moveSpeed := 1
    deleteDrawnCard := false }

/-- Function `updateSettings`: merge the partial update over the previous settings;
when the update carries a `cardAmount` different from the previous one,
rebuild `cardContents` from the *previous* contents — appending synthesized
entries when growing past the previous length, otherwise slicing the
previous contents — overwriting any contents carried by the update. -/
def updateSettings (prev : AppSettings) (newSettings : SettingsUpdate) :
    AppSettings :=
  let updated : AppSettings :=
    { cardAmount := newSettings.cardAmount.getD prev.cardAmount
      cardContents := newSettings.cardContents.getD prev.cardContents
      moveSpeed := newSettings.moveSpeed.getD prev.moveSpeed
      deleteDrawnCard := newSettings.deleteDrawnCard.getD prev.deleteDrawnCard }
  match newSettings.cardAmount with
  | none => updated
  | some amt =>
      if amt ≠ prev.cardAmount then
        if (prev.cardContents.length : ℤ) < amt then
          { updated with
              cardContents :=
                prev.cardContents ++ additionalCards prev.cardContents.length amt }
        else
          { updated with cardContents := jsSlice prev.cardContents amt }
      else updated

/-- The stored-settings load in `AppProvider`: `none` models both a missing
stored record and an unparseable one (the `catch` path); a parsed record
with fewer contents than `cardAmount` is padded with synthesized entries
(nothing is truncated when there are more). -/
def loadSettings (stored : Option AppSettings) : AppSettings :=
  match stored with
  | none => defaultSettings
  | some parsed =>
      if (parsed.cardContents.length : ℤ) < parsed.cardAmount then
        { parsed with
            cardContents :=
              parsed.cardContents ++
                additionalCards parsed.cardContents.length parsed.cardAmount }
      else parsed

theorem additionalCards_length (len : ℕ) (amt : ℤ) :
    (additionalCards len amt).length = (amt - len).toNat := by
  unfold additionalCards
  rw [List.length_map, List.length_range]

theorem additionalCards_id_ge {len : ℕ} {amt : ℤ} {c : CardContent}
    (hc : c ∈ additionalCards len amt) : (len : ℤ) ≤ c.id := by
  unfold additionalCards at hc
  simp only [List.mem_map, List.mem_range] at hc
  obtain ⟨i, _, rfl⟩ := hc
  simp only []
  omega

/-- C2 counterexample: an `updateSettings` call that carries only a
`cardContents` list (no `cardAmount`) installs that list verbatim, so a
one-entry list against the default ten-card settings leaves
`cardContents.length = 1 ≠ 10 = cardAmount`, refuting the claimed invariant
for "any combination of fields". -/
theorem updateSettings_contents_only_breaks_invariant :
    ¬ (((updateSettings defaultSettings
          { cardAmount := none
            cardContents := some [{ id := 0, text := "A" }]
            moveSpeed := none
            deleteDrawnCard := none }).cardContents.length : ℤ)
        = (updateSettings defaultSettings
            { cardAmount := none
              cardContents := some [{ id := 0, text := "A" }]
              moveSpeed := none
              deleteDrawnCard := none }).cardAmount) := by
  decide

/-- C2 (amended): after every `updateSettings` call whose argument carries a
`cardAmount` different from the current one (and nonnegative, as all in-app
calls are), the resulting `cardContents` has length exactly the new
`cardAmount`; on shrink the previous contents are truncated (trailing
entries dropped), on growth synthesized default entries with sequential ids
starting at the previous length are appended. -/
theorem updateSettings_amount_change_invariant (prev : AppSettings)
    (u : SettingsUpdate) (amt : ℤ) (hu : u.cardAmount = some amt)
    (hne : amt ≠ prev.cardAmount) (h0 : 0 ≤ amt) :
    ((updateSettings prev u).cardContents.length : ℤ) = amt ∧
      (amt ≤ (prev.cardContents.length : ℤ) →
        (updateSettings prev u).cardContents
          = prev.cardContents.take amt.toNat) ∧
      ((prev.cardContents.length : ℤ) < amt →
        (updateSettings prev u).cardContents
          = prev.cardContents ++ additionalCards prev.cardContents.length amt) := by
  unfold updateSettings
  rw [hu]
  simp only [if_pos hne]
  rcases lt_or_le (prev.cardContents.length : ℤ) amt with hgrow | hle
  · rw [if_pos hgrow]
    refine ⟨?_, fun hcontra => absurd hgrow (not_lt.mpr hcontra), fun _ => rfl⟩
    simp only [List.length_append, additionalCards_length]
    omega
  · rw [if_neg (not_lt.mpr hle)]
    have hslice : jsSlice prev.cardContents amt = prev.cardContents.take amt.toNat := by
      unfold jsSlice
      rw [if_neg (not_lt.mpr h0)]
    refine ⟨?_, fun _ => hslice, fun hcontra => absurd hcontra (not_lt.mpr hle)⟩
    rw [hslice]
    simp only [List.length_take]
    omega

/-- Witness for `updateSettings_amount_change_invariant`: shrinking the
default ten-card settings to five cards. -/
theorem updateSettings_amount_change_invariant_witness :
    ((updateSettings defaultSettings
        { cardAmount := some 5, cardContents := none
          moveSpeed := none, deleteDrawnCard := none }).cardContents.length : ℤ) = 5 ∧
      ((5:ℤ) ≤ (defaultSettings.cardContents.length : ℤ) →
        (updateSettings defaultSettings
          { cardAmount := some 5, cardContents := none
            moveSpeed := none, deleteDrawnCard := none }).cardContents
          = defaultSettings.cardContents.take (5:ℤ).toNat) ∧
      ((defaultSettings.cardContents.length : ℤ) < 5 →
        (updateSettings defaultSettings
          { cardAmount := some 5, cardContents := none
            moveSpeed := none, deleteDrawnCard := none }).cardContents
          = defaultSettings.cardContents
              ++ additionalCards defaultSettings.cardContents.length 5) :=
  updateSettings_amount_change_invariant defaultSettings
    { cardAmount := some 5, cardContents := none
      moveSpeed := none, deleteDrawnCard := none } 5 rfl (by decide) (by decide)

/-- C10: when an `updateSettings` call changes `cardAmount`, the resulting
settings do not depend on the `cardContents` carried by that same call: two
calls agreeing on everything except the passed contents produce identical
results, so any passed contents (e.g. edited card texts from the settings
page saved together with a changed card count) are discarded. -/
theorem updateSettings_discards_passed_contents (prev : AppSettings)
    (u₁ u₂ : SettingsUpdate) (amt : ℤ)
    (h₁ : u₁.cardAmount = some amt) (h₂ : u₂.cardAmount = some amt)
    (hms : u₁.moveSpeed = u₂.moveSpeed)
    (hdd : u₁.deleteDrawnCard = u₂.deleteDrawnCard)
    (hne : amt ≠ prev.cardAmount) :
    updateSettings prev u₁ = updateSettings prev u₂ := by
  unfold updateSettings
  rw [h₁, h₂, hms, hdd]
  simp only [if_pos hne]

/-- Witness for `updateSettings_discards_passed_contents`: saving the
settings page with card 1's text edited to `"Edited"` and the card count
changed from 10 to 5 yields the same settings as saving without the edit. -/
theorem updateSettings_discards_passed_contents_witness :
    updateSettings defaultSettings
        { cardAmount := some 5
          cardContents := some ({ id := 0, text := "Edited" } :: defaultCardContents.drop 1)
          moveSpeed := some 1
          deleteDrawnCard := some false }
      = updateSettings defaultSettings
        { cardAmount := some 5
          cardContents := some defaultCardContents
          moveSpeed := some 1
          deleteDrawnCard := some false } :=
  updateSettings_discards_passed_contents defaultSettings _ _ 5 rfl rfl rfl rfl
    (by decide)

/-- C4 counterexample: loading a stored record with `cardAmount = 10` and six
entries, one of which already has id `7`, pads with ids `6,7,8,9`; the
appended id `7` collides with the existing entry's id, so the padded list's
ids are not pairwise distinct. -/
theorem loadSettings_pad_id_collision :
    ((loadSettings (some
        { cardAmount := 10
          cardContents := [⟨0, "A"⟩, ⟨1, "B"⟩, ⟨2, "C"⟩, ⟨3, "D"⟩, ⟨4, "E"⟩, ⟨7, "F"⟩]
          moveSpeed := 1
          deleteDrawnCard := false })).cardContents.length = 10) ∧
    ¬ (((loadSettings (some
        { cardAmount := 10
          cardContents := [⟨0, "A"⟩, ⟨1, "B"⟩, ⟨2, "C"⟩, ⟨3, "D"⟩, ⟨4, "E"⟩, ⟨7, "F"⟩]
          moveSpeed := 1
          deleteDrawnCard := false })).cardContents.map CardContent.id).Nodup) := by
  constructor
  · decide
  · decide

/-- C4 (amended): a stored record whose contents already match its
`cardAmount` loads unchanged (save-then-load round-trip identity);
missing/unparseable data loads as the documented defaults; and a record with
`cardAmount = 10` but only 6 entries is padded to exactly 10 entries with
sequential ids starting at the previous length — these collide with no
existing entry's id provided all existing ids are below the previous length
(as holds for every record the app itself writes). -/
theorem loadSettings_spec :
    (∀ s : AppSettings, (s.cardContents.length : ℤ) = s.cardAmount →
        loadSettings (some s) = s) ∧
    loadSettings none = defaultSettings ∧
    (∀ s : AppSettings, s.cardAmount = 10 → s.cardContents.length = 6 →
      (∀ c ∈ s.cardContents, c.id < 6) →
      (loadSettings (some s)).cardContents.length = 10 ∧
      (loadSettings (some s)).cardContents.take 6 = s.cardContents ∧
      ∀ c ∈ (loadSettings (some s)).cardContents.drop 6,
        c.id ∉ s.cardContents.map CardContent.id) := by
  have hload : ∀ s : AppSettings, loadSettings (some s)
      = if (s.cardContents.length : ℤ) < s.cardAmount then
          { s with cardContents :=
              s.cardContents ++ additionalCards s.cardContents.length s.cardAmount }
        else s := fun s => rfl
  refine ⟨?_, rfl, ?_⟩
  · intro s h
    rw [hload, h, if_neg (lt_irrefl _)]
  · intro s h10 h6 hids
    rw [hload, h10, h6]
    rw [if_pos (by norm_num : ((6:ℕ) : ℤ) < 10)]
    have hlen6 : s.cardContents.length = 6 := h6
    refine ⟨?_, ?_, ?_⟩
    · simp only [List.length_append, additionalCards_length, hlen6]
      decide
    · have := List.take_left s.cardContents (additionalCards 6 10)
      rw [hlen6] at this
      exact this
    · intro c hc hmem
      have hdrop : (s.cardContents ++ additionalCards 6 10).drop 6
          = additionalCards 6 10 := by
        have := List.drop_left s.cardContents (additionalCards 6 10)
        rw [hlen6] at this
        exact this
      rw [hdrop] at hc
      have hge : ((6:ℕ) : ℤ) ≤ c.id := additionalCards_id_ge hc
      simp only [List.mem_map] at hmem
      obtain ⟨c2, hc2mem, hc2id⟩ := hmem
      have := hids c2 hc2mem
      omega

/-- Witness for `loadSettings_spec` (its universally quantified parts applied
at concrete records): the seven-card record round-trips unchanged, and the
six-entry record with ids `0..5` is padded to ten entries. -/
theorem loadSettings_spec_witness :
    loadSettings (some
        { cardAmount := 7
          cardContents := (List.range 7).map fun (i : ℕ) =>
            { id := (i : ℤ), text := luckyCardText ((i : ℤ) + 1) }
          moveSpeed := 1
          deleteDrawnCard := true })
      = { cardAmount := 7
          cardContents := (List.range 7).map fun (i : ℕ) =>
            { id := (i : ℤ), text := luckyCardText ((i : ℤ) + 1) }
          moveSpeed := 1
          deleteDrawnCard := true } ∧
    (loadSettings (some
        { cardAmount := 10
          cardContents := [⟨0, "A"⟩, ⟨1, "B"⟩, ⟨2, "C"⟩, ⟨3, "D"⟩, ⟨4, "E"⟩, ⟨5, "F"⟩]
          moveSpeed := 1
          deleteDrawnCard := false })).cardContents.length = 10 :=
  ⟨loadSettings_spec.1 _ (by decide),
   (loadSettings_spec.2.2
      { cardAmount := 10
        cardContents := [⟨0, "A"⟩, ⟨1, "B"⟩, ⟨2, "C"⟩, ⟨3, "D"⟩, ⟨4, "E"⟩, ⟨5, "F"⟩]
        moveSpeed := 1
        deleteDrawnCard := false }
      (by decide) (by decide) (by decide)).1⟩

/-! ## Gesture interpreter (`useGestureControl.ts`) -/

/-- One gesture datum (`GestureData`): produced per camera frame. -/
structure GestureData where
  handDetected : Bool
  palmX : ℚ
  isPinching : Bool
  gestureSpeed : ℚ
deriving DecidableEq

/-- A normalized hand landmark (x, y, z coordinates), modelled exactly. -/
structure Landmark where
  x : ℚ
  y : ℚ
  z : ℚ

/-- Function `calculateDistance`: 3D Euclidean distance between two landmarks
(`Math.sqrt(dx*dx + dy*dy + dz*dz)`). -/
noncomputable def calculateDistance (point1 point2 : Landmark) : ℝ :=
  Real.sqrt (((point1.x - point2.x) * (point1.x - point2.x)
      + (point1.y - point2.y) * (point1.y - point2.y)
      + (point1.z - point2.z) * (point1.z - point2.z) : ℚ) : ℝ)

open Classical in
/-- Function `detectHandClosure`: a hand counts as "pinching" when ANY of five
heuristics holds — thumb-index pinch, thumb-middle pinch, fist (average
fingertip-to-palm distance), at least 3 of 4 fingers curled (tip below PIP
joint, larger y), or all five fingertips clustered near their centroid. -/
noncomputable def detectHandClosure (landmarks : Fin 21 → Landmark) : Bool :=
  let thumbIndexDistance := calculateDistance (landmarks 4) (landmarks 8)
  let thumbIndexPinch : Prop := thumbIndexDistance < 0.06
  let thumbMiddleDistance := calculateDistance (landmarks 4) (landmarks 12)
  let thumbMiddlePinch : Prop := thumbMiddleDistance < 0.06
  let palmCenter := landmarks 9
  let fingertipDistances : List ℝ :=
    [calculateDistance (landmarks 8) palmCenter,
     calculateDistance (landmarks 12) palmCenter,
     calculateDistance (landmarks 16) palmCenter,
     calculateDistance (landmarks 20) palmCenter]
  let averageFingertipDistance := fingertipDistances.sum / (fingertipDistances.length : ℝ)
  let isFist : Prop := averageFingertipDistance < 0.12
  let indexCurled := decide ((landmarks 8).y > (landmarks 6).y)
  let middleCurled := decide ((landmarks 12).y > (landmarks 10).y)
  let ringCurled := decide ((landmarks 16).y > (landmarks 14).y)
  let pinkyCurled := decide ((landmarks 20).y > (landmarks 18).y)
  let curledFingerCount :=
    ([indexCurled, middleCurled, ringCurled, pinkyCurled].filter fun b => b).length
  let mostFingersCurled : Prop := curledFingerCount ≥ 3
  let allFingertips : List Landmark :=
    [landmarks 4, landmarks 8, landmarks 12, landmarks 16, landmarks 20]
  let centroid : Landmark :=
    { x := (allFingertips.map Landmark.x).sum / (allFingertips.length : ℚ)
      y := (allFingertips.map Landmark.y).sum / (allFingertips.length : ℚ)
      z := (allFingertips.map Landmark.z).sum / (allFingertips.length : ℚ) }
  let maxDistanceFromCentroid :=
    ((allFingertips.map fun tip => calculateDistance tip centroid).foldr max 0)
  let allFingersTogether : Prop := maxDistanceFromCentroid < 0.08
  decide thumbIndexPinch || decide thumbMiddlePinch || decide isFist
    || decide mostFingersCurled || decide allFingersTogether

/-- Function `calculateGestureSpeed`: horizontal intensity from the palm's normalized
x position, with a dead zone of half-width 0.05 around the center 0.5,
scaling linearly outside it and clamped by `Math.min`. -/
def calculateGestureSpeed (palmX : ℚ) : ℚ :=
  let deadZone : ℚ := 0.05
  let maxRange : ℚ := 0.45
  if palmX > 0.5 + deadZone then
    let intensity := (palmX - (0.5 + deadZone)) / maxRange
    min 1 intensity
  else if palmX < 0.5 - deadZone then
    let intensity := (0.5 - deadZone - palmX) / maxRange
    Neg.neg (min 1 intensity)
  else 0

/-- The gesture datum computed by `onResults` for one camera frame: it starts
from the no-hand default and is overwritten when at least one hand was
detected, using the first hand's 21 landmarks. -/
noncomputable def onResultsGesture
    (multiHandLandmarks : List (Fin 21 → Landmark)) : GestureData :=
  match multiHandLandmarks with
  | [] =>
      { handDetected := false, palmX := 0.5, isPinching := false, gestureSpeed := 0 }
  | landmarks :: _ =>
      let palmX := ((landmarks 0).x + (landmarks 5).x + (landmarks 9).x
        + (landmarks 13).x + (landmarks 17).x) / 5
      { handDetected := true
        palmX := palmX
        isPinching := detectHandClosure landmarks
        gestureSpeed := calculateGestureSpeed palmX }

/-- The `setCurrentGesture` update at the end of `onResults`: the freshly
computed gesture datum replaces the previous one wholesale; the previous
value is never read. -/
noncomputable def nextGesture (prev : GestureData)
    (multiHandLandmarks : List (Fin 21 → Landmark)) : GestureData :=
  onResultsGesture multiHandLandmarks

/-! ## Home page state machine (`HomePage.tsx`) -/

/-- The state of the home page relevant to selection and reset. -/
structure HomeState where
  rotation : ℚ
  isMoving : Bool
  selectedCard : Option ℚ
  flippedCard : Option ℚ
  direction : ℤ
  gestureEnabled : Bool
  gestureSpeed : ℚ
  lastPinch : Bool
  settings : AppSettings
deriving DecidableEq

/-- The state effect of `handleConfirm`: select the centered card and stop
the rotation. -/
def handleConfirmState (s : HomeState) : HomeState :=
  { s with
      selectedCard := some (handleConfirm s.rotation s.settings.cardAmount)
      isMoving := false }

/-- Function `handleGestureUpdate`: ignore gestures when disabled or a card is already
selected; otherwise record the gesture speed, update the direction when the
speed is beyond 0.1, fire `handleConfirm` on a rising edge of `isPinching`,
and remember the pinch state. -/
def handleGestureUpdate (s : HomeState) (gesture : GestureData) : HomeState :=
  if s.gestureEnabled = false ∨ s.selectedCard ≠ none then s
  else
    let s1 := { s with gestureSpeed := gesture.gestureSpeed }
    let s2 :=
      if |gesture.gestureSpeed| > 0.1 then
        { s1 with direction := if gesture.gestureSpeed > 0 then 1 else -1 }
      else s1
    let s3 :=
      if gesture.isPinching = true ∧ s.lastPinch = false then handleConfirmState s2
      else s2
    { s3 with lastPinch := gesture.isPinching }

/-- Function `handleReset` ("Draw Again"): clear selection, flip, pinch memory and
gesture speed; when `deleteDrawnCard` is set, a card was selected and the
pool holds more than 3 cards, remove the drawn card (an index-based filter)
and shrink the amount via `updateSettings`; finally restart movement. -/
def handleReset (s : HomeState) : HomeState :=
  let s1 := { s with
      selectedCard := none, flippedCard := none,
      lastPinch := false, gestureSpeed := 0 }
  match s.selectedCard with
  | some sel =>
      if s.settings.deleteDrawnCard = true ∧ 3 < s.settings.cardContents.length then
        let updatedContents :=
          (s.settings.cardContents.enum.filter
            fun p => decide (¬ ((p.1 : ℚ) = sel))).map Prod.snd
        let newAmount := max 3 (s.settings.cardAmount - 1)
        { s1 with
            settings := updateSettings s.settings
              { cardAmount := some newAmount
                cardContents := some updatedContents
                moveSpeed := none
                deleteDrawnCard := none }
            isMoving := true }
      else { s1 with isMoving := true }
  | none => { s1 with isMoving := true }

/-- Fold `handleGestureUpdate` over a list of gesture frames. -/
def runFrames (s : HomeState) : List GestureData → HomeState
  | [] => s
  | g :: gs => runFrames (handleGestureUpdate s g) gs

/-- How many frames of the list fire the confirm action (observable as the
transition of `selectedCard` from `none` to `some`). -/
def confirmCount (s : HomeState) : List GestureData → ℕ
  | [] => 0
  | g :: gs =>
      let s2 := handleGestureUpdate s g
      (if s.selectedCard = none ∧ s2.selectedCard ≠ none then 1 else 0)
        + confirmCount s2 gs

/-! ## Card transform (`getCardStyle`)

`getCardStyle` computes `z = Math.cos(angle) * radius`, `scale = (z + radius)
/ (radius * 2)` and `opacity = scale > 0.3 ? 1 : 0.3`; the card index, card
count and current rotation enter only through `angle`, so depth placement is
modelled as a function of `cosAngle = Math.cos(angle)`.
-/

/-- Depth `z = Math.cos(angle) * radius`. -/
def cardZ (radius cosAngle : ℚ) : ℚ := cosAngle * radius

/-- Scale `scale = (z + radius) / (radius * 2)`. -/
def cardScale (radius cosAngle : ℚ) : ℚ :=
  (cardZ radius cosAngle + radius) / (radius * 2)

/-- Opacity `opacity = scale > 0.3 ? 1 : 0.3`. -/
def cardOpacity (radius cosAngle : ℚ) : ℚ :=
  if cardScale radius cosAngle > 0.3 then 1 else 0.3

/-! ## Concrete states used to exercise reset and the pinch edge-trigger -/

/-- A home state with `deleteDrawnCard` enabled, a pool of four cards
`A,B,C,D` (ids 0..3) and the card at index 0 (label `A`) drawn. -/
def drawnState4 : HomeState :=
  { rotation := 0
    isMoving := false
    selectedCard := some 0
    flippedCard := none
    direction := 1
    gestureEnabled := false
    gestureSpeed := 0
    lastPinch := false
    settings :=
      { cardAmount := 4
        cardContents := [⟨0, "A"⟩, ⟨1, "B"⟩, ⟨2, "C"⟩, ⟨3, "D"⟩]
        moveSpeed := 1
        deleteDrawnCard := true } }

/-- As `drawnState4` but with a pool of exactly three cards. -/
def drawnState3 : HomeState :=
  { drawnState4 with
    settings :=
      { cardAmount := 3
        cardContents := [⟨0, "A"⟩, ⟨1, "B"⟩, ⟨2, "C"⟩]
        moveSpeed := 1
        deleteDrawnCard := true } }

/-- The initial home state with gesture control enabled and no selection. -/
def initialHomeState : HomeState :=
  { rotation := 0
    isMoving := true
    selectedCard := none
    flippedCard := none
    direction := 1
    gestureEnabled := true
    gestureSpeed := 0
    lastPinch := false
    settings := defaultSettings }

/-- A gesture frame with the hand centered and a given pinch flag. -/
def pinchFrame (p : Bool) : GestureData :=
  { handDetected := true, palmX := 0.5, isPinching := p, gestureSpeed := 0 }

/-- C3 (behavior of the code at the failing input): resetting from
`drawnState4` — `deleteDrawnCard` on, pool `A,B,C,D`, selected index 0 —
shrinks the pool to 3 cards, but the pool becomes `A,B,C`: the card that
disappears is the *last* card `D`, and the previously drawn label `A` is
still present, because `updateSettings` discards the filtered contents
passed by `handleReset` and slices the previous contents instead. The
pool-of-three case is left unchanged as claimed. -/
theorem handleReset_keeps_drawn_card :
    (handleReset drawnState4).settings.cardContents.map CardContent.text
        = ["A", "B", "C"] ∧
    (handleReset drawnState4).settings.cardAmount = 3 ∧
    "A" ∈ (handleReset drawnState4).settings.cardContents.map CardContent.text ∧
    (handleReset drawnState3).settings = drawnState3.settings := by
  refine ⟨by decide, by decide, by decide, by decide⟩

/-- C6: the frame sequence `[pinch=false, false, true, true, false]` fed to
`handleGestureUpdate` from the initial state fires the confirm action
exactly once, and it fires at the third frame (no selection after two
frames, a selection after three); in general a frame can only create a
selection on a rising edge of `isPinching` (`pinching` now, not at the
previous frame), so a held pinch never re-fires. -/
theorem pinch_rising_edge :
    confirmCount initialHomeState
        [pinchFrame false, pinchFrame false, pinchFrame true,
         pinchFrame true, pinchFrame false] = 1 ∧
    (runFrames initialHomeState [pinchFrame false, pinchFrame false]).selectedCard
        = none ∧
    (runFrames initialHomeState
        [pinchFrame false, pinchFrame false, pinchFrame true]).selectedCard ≠ none ∧
    (∀ (s : HomeState) (g : GestureData),
      (handleGestureUpdate s g).selectedCard ≠ none →
        s.selectedCard ≠ none ∨ (g.isPinching = true ∧ s.lastPinch = false)) := by
  refine ⟨?_, ?_, ?_, ?_⟩
  · norm_num [confirmCount, handleGestureUpdate, handleConfirmState,
      initialHomeState, pinchFrame, Option.some_ne_none]
  · norm_num [runFrames, handleGestureUpdate, handleConfirmState,
      initialHomeState, pinchFrame, Option.some_ne_none]
  · norm_num [runFrames, handleGestureUpdate, handleConfirmState,
      initialHomeState, pinchFrame, Option.some_ne_none]
  · intro s g h
    unfold handleGestureUpdate at h
    by_cases hg : s.gestureEnabled = false ∨ s.selectedCard ≠ none
    · rw [if_pos hg] at h
      exact Or.inl h
    · rw [if_neg hg] at h
      by_cases hp : g.isPinching = true ∧ s.lastPinch = false
      · exact Or.inr hp
      · left
        by_cases hc : |g.gestureSpeed| > 0.1
        · simpa only [if_neg hp, if_pos hc] using h
        · simpa only [if_neg hp, if_neg hc] using h

/-- Witness for the rising-edge implication in `pinch_rising_edge`: with a
card already selected, the frame leaves the selection in place and the left
disjunct holds. -/
theorem pinch_rising_edge_witness :
    ({ initialHomeState with selectedCard := some 0 } : HomeState).selectedCard ≠ none
      ∨ ((pinchFrame false).isPinching = true
          ∧ ({ initialHomeState with selectedCard := some 0 } : HomeState).lastPinch
              = false) :=
  pinch_rising_edge.2.2.2 { initialHomeState with selectedCard := some 0 }
    (pinchFrame false) (by decide)

/-- C5: `calculateGestureSpeed` is exactly 0 on the dead zone
`[0.5 - 0.05, 0.5 + 0.05]`; it is exactly `+1` at `palmX = 1` and `-1` at
`palmX = 0`; outside the dead zone it is the linear ramp from the dead-zone
edge clamped by `Math.min` (positive to the right); and it always lies in
`[-1, 1]`. -/
theorem gestureSpeed_dead_zone_saturation_clamp :
    (∀ palmX : ℚ, 0.5 - 0.05 ≤ palmX → palmX ≤ 0.5 + 0.05 →
        calculateGestureSpeed palmX = 0) ∧
    calculateGestureSpeed 1 = 1 ∧
    calculateGestureSpeed 0 = -1 ∧
    (∀ palmX : ℚ, 0.5 + 0.05 < palmX →
        calculateGestureSpeed palmX = min 1 ((palmX - (0.5 + 0.05)) / 0.45)) ∧
    (∀ palmX : ℚ, palmX < 0.5 - 0.05 →
        calculateGestureSpeed palmX = -(min 1 ((0.5 - 0.05 - palmX) / 0.45))) ∧
    (∀ palmX : ℚ, -1 ≤ calculateGestureSpeed palmX
        ∧ calculateGestureSpeed palmX ≤ 1) := by
  refine ⟨?_, by norm_num [calculateGestureSpeed], by norm_num [calculateGestureSpeed],
    ?_, ?_, ?_⟩
  · intro x h1 h2
    simp only [calculateGestureSpeed]
    split_ifs with ha hb
    · linarith
    · linarith
    · rfl
  · intro x h
    simp only [calculateGestureSpeed]
    split_ifs with ha hb
    all_goals first | rfl | linarith
  · intro x h
    simp only [calculateGestureSpeed]
    split_ifs with ha hb
    all_goals first | rfl | linarith
  · intro x
    simp only [calculateGestureSpeed]
    split_ifs with ha hb
    · constructor
      · have h0 : (0:ℚ) ≤ (x - (0.5 + 0.05)) / 0.45 := by
          apply div_nonneg <;> linarith
        have := le_min (by norm_num : (-1:ℚ) ≤ 1) (by linarith : (-1:ℚ) ≤ (x - (0.5 + 0.05)) / 0.45)
        exact this
      · exact min_le_left _ _
    · constructor
      · have : min (1:ℚ) ((0.5 - 0.05 - x) / 0.45) ≤ 1 := min_le_left _ _
        linarith
      · have h0 : (0:ℚ) ≤ (0.5 - 0.05 - x) / 0.45 := by
          apply div_nonneg <;> linarith
        have : (0:ℚ) ≤ min 1 ((0.5 - 0.05 - x) / 0.45) :=
          le_min (by norm_num) h0
        linarith
    · norm_num

/-- Witness for `gestureSpeed_dead_zone_saturation_clamp`: its quantified
parts applied at `palmX = 0.5` (dead zone), `0.7` (right ramp), `0.2` (left
ramp) and `3` (clamp). -/
theorem gestureSpeed_dead_zone_saturation_clamp_witness :
    calculateGestureSpeed 0.5 = 0 ∧
    calculateGestureSpeed 0.7 = min 1 ((0.7 - (0.5 + 0.05)) / 0.45) ∧
    calculateGestureSpeed 0.2 = -(min 1 ((0.5 - 0.05 - 0.2) / 0.45)) ∧
    (-1 ≤ calculateGestureSpeed 3 ∧ calculateGestureSpeed 3 ≤ 1) :=
  ⟨gestureSpeed_dead_zone_saturation_clamp.1 0.5 (by norm_num) (by norm_num),
   gestureSpeed_dead_zone_saturation_clamp.2.2.2.1 0.7 (by norm_num),
   gestureSpeed_dead_zone_saturation_clamp.2.2.2.2.1 0.2 (by norm_num),
   gestureSpeed_dead_zone_saturation_clamp.2.2.2.2.2 3⟩

/-- C9: a camera frame with zero hands yields the no-hand gesture datum —
`handDetected = false`, `gestureSpeed = 0`, `isPinching = false` — and the
datum replacing the previous one wholesale, this holds regardless of the
previous frame's value. -/
theorem no_hand_frame_resets (prev : GestureData) :
    (nextGesture prev []).handDetected = false ∧
    (nextGesture prev []).gestureSpeed = 0 ∧
    (nextGesture prev []).isPinching = false :=
  ⟨rfl, rfl, rfl⟩

/-- C7: for positive radius, the depth scale `(z + radius) / (radius * 2)`
is monotone (non-decreasing) in `cos(angle)`; at `angle = 0`
(`cos = 1`, the near point) the scale is 1 and the opacity 1; at
`angle = 180°` (`cos = -1`, the far point) the scale is 0 and the opacity
0.3. -/
theorem cardScale_monotone_endpoints (radius : ℚ) (hr : 0 < radius) :
    (∀ c₁ c₂ : ℚ, c₁ ≤ c₂ → cardScale radius c₁ ≤ cardScale radius c₂) ∧
    cardScale radius 1 = 1 ∧ cardOpacity radius 1 = 1 ∧
    cardScale radius (-1) = 0 ∧ cardOpacity radius (-1) = 0.3 := by
  have h2r : (0:ℚ) < radius * 2 := by linarith
  have hs1 : cardScale radius 1 = 1 := by
    unfold cardScale cardZ
    rw [div_eq_one_iff_eq h2r.ne']
    ring
  have hsm1 : cardScale radius (-1) = 0 := by
    unfold cardScale cardZ
    have hz : (-1 : ℚ) * radius + radius = 0 := by ring
    rw [hz, zero_div]
  refine ⟨?_, hs1, ?_, hsm1, ?_⟩
  · intro c₁ c₂ h
    unfold cardScale cardZ
    have hle : c₁ * radius + radius ≤ c₂ * radius + radius := by nlinarith
    exact (div_le_div_right h2r).mpr hle
  · unfold cardOpacity
    rw [if_pos (by rw [hs1]; norm_num)]
  · unfold cardOpacity
    rw [if_neg (by rw [hsm1]; norm_num)]

/-- Witness for `cardScale_monotone_endpoints` at `radius = 200` (and its
monotonicity part at `cos` values `-1 ≤ 1/2`). -/
theorem cardScale_monotone_endpoints_witness :
    cardScale 200 (-1) ≤ cardScale 200 (1/2) ∧
    cardScale 200 1 = 1 ∧ cardOpacity 200 1 = 1 ∧
    cardScale 200 (-1) = 0 ∧ cardOpacity 200 (-1) = 0.3 :=
  ⟨(cardScale_monotone_endpoints 200 (by norm_num)).1 (-1) (1/2) (by norm_num),
   (cardScale_monotone_endpoints 200 (by norm_num)).2.1,
   (cardScale_monotone_endpoints 200 (by norm_num)).2.2.1,
   (cardScale_monotone_endpoints 200 (by norm_num)).2.2.2.1,
   (cardScale_monotone_endpoints 200 (by norm_num)).2.2.2.2⟩

end Gachacha
